import Mathlib

/-!
Verification of the training control loop in `src/training/compression.py`
(`train_dcn` and its helpers), via a shallow embedding in Lean.

Scalar float metrics (loss, SSIM, entropy) are modelled as rationals `ℚ`;
a float that may be NaN is modelled as `Option ℚ` with `none` standing for
NaN.  Python list slices are translated with `List.drop` / `List.take` /
`List.dropLast`, and `collections.deque(maxlen=·)` with an explicit
bounded-append operation.
-/

namespace NeuralImaging

/-- `np.mean` over a list of scalars: sum divided by length. -/
def npMean (xs : List ℚ) : ℚ := xs.sum / xs.length

/-- `collections.deque(maxlen)` append: add `v` on the right and silently
evict the oldest elements on the left while the capacity is exceeded. -/
def dequeAppend {α : Type} (maxlen : Nat) (d : List α) (v : α) : List α :=
  let d' := d ++ [v]
  if maxlen < d'.length then d'.drop (d'.length - maxlen) else d'

/-- `n_tail = 5` from `train_dcn` (line 154). -/
def n_tail : Nat := 5

/-- `current = np.mean(perf['ssim']['validation'][-n_tail:])` (line 308):
mean of the last 5 validation-SSIM epoch averages. -/
def currentMean (xs : List ℚ) : ℚ := npMean (xs.drop (xs.length - n_tail))

/-- `previous = np.mean(perf['ssim']['validation'][-(n_tail + 1):-1])`
(line 309): the Python slice `[-6:-1]` keeps the 5 values that end one
position before the most recent one. -/
def previousMean (xs : List ℚ) : ℚ := npMean ((xs.drop (xs.length - (n_tail + 1))).dropLast)

/-- `perf_change = abs((current - previous) / previous)` (line 310). -/
def perfChange (xs : List ℚ) : ℚ :=
  |(currentMean xs - previousMean xs) / previousMean xs|

/-- The two early-stop reasons decided by the validation evaluator. -/
inductive StopReason : Type
  | converged
  | deteriorated
deriving DecidableEq, Repr

/-- The convergence / deterioration check of `train_dcn` (lines 306-318):
runs only once more than 5 validation-SSIM averages exist; first tests
`perf_change < convergence_threshold` (converged), then
`current < 0.9 * previous` (deteriorated). -/
def convergenceCheck (val_ssim : List ℚ) (threshold : ℚ) : Option StopReason :=
  if 5 < val_ssim.length then
    if perfChange val_ssim < threshold then some StopReason.converged
    else if currentMean val_ssim < (9 / 10) * previousMean val_ssim then
      some StopReason.deteriorated
    else none
  else none

/-- Modelled from the spec words for claim C1 only (a refinement
comparison): the mean of "the 5 values immediately before those last 5",
i.e. the disjoint window `xs[-10:-5]`. The source instead uses `xs[-6:-1]`
(see `previousMean`). -/
def claimedPreviousMean (xs : List ℚ) : ℚ :=
  npMean ((xs.drop (xs.length - 10)).take 5)

/-! ### Data model of the training loop -/

/-- A per-split pair of values, mirroring the `{'training': .., 'validation': ..}`
dictionaries of `train_dcn`. -/
structure Split (α : Type) : Type where
  training : α
  validation : α
deriving DecidableEq, Repr

/-- A per-metric triple, mirroring the `{'loss': .., 'ssim': .., 'entropy': ..}`
dictionaries of `train_dcn`. -/
structure Metrics (α : Type) : Type where
  loss : α
  ssim : α
  entropy : α
deriving DecidableEq, Repr

/-- The Performance Log `dcn.performance`: per metric and split, the ordered
list of epoch-level averages. -/
abbrev Perf : Type := Metrics (Split (List ℚ))

/-- The Metric Cache `caches` (lines 148-152): per metric and split, a
bounded deque of per-batch scalars. -/
abbrev Caches : Type := Metrics (Split (List ℚ))

/-- The result of one `dcn.training_step` call (line 204): a map with keys
`loss`, `ssim`, `entropy`.  The loss is an `Option ℚ`, with `none` standing
for a NaN float (the only NaN the loop inspects, line 207). -/
structure StepMetrics : Type where
  loss : Option ℚ
  ssim : ℚ
  entropy : ℚ

/-- The three scalars computed for one validation batch (lines 250-258):
`np.linalg.norm` loss, batch-mean SSIM, and latent entropy. -/
structure ValMetrics : Type where
  loss : ℚ
  ssim : ℚ
  entropy : ℚ

/-- Observable side effects (filesystem / summary-writer writes) of
`train_dcn`, in program order. -/
inductive Event : Type
  | summaryWriterCreated
  | thumbnailsSaved (epoch : Nat)
  | tbSummaryWritten (epoch : Nat)
  | progressJsonSaved (epoch : Nat)
  | checkpointSaved (epoch : Nat)
  | nanDump (epoch : Nat)
deriving DecidableEq, Repr

/-- The model collaborator, reduced to what the loop observes: its initial
Performance Log, the metrics each training step returns (indexed by epoch
and batch id), and the metrics each validation batch yields. -/
structure DCN : Type where
  performance : Perf
  training_step : Nat → Nat → StepMetrics
  validation_metrics : Nat → Nat → ValMetrics

/-- Sample counts of the data provider (`data['training']['y'].shape[0]` and
`data['validation']['y'].shape[0]`, lines 142-143). -/
structure DataCounts : Type where
  training_count : Nat
  validation_count : Nat

/-- The fields of the `training` configuration dictionary the loop reads. -/
structure Config : Type where
  batch_size : Nat
  n_epochs : Nat
  learning_rate : ℚ
  learning_rate_reduction_factor : ℚ
  learning_rate_reduction_schedule : Nat
  validation_schedule : Nat
  convergence_threshold : ℚ

/-- The mutable state threaded through the epoch loop: the Performance Log,
the Metric Cache, the learning-rate local, and the write events so far. -/
structure TrainState : Type where
  perf : Perf
  caches : Caches
  learning_rate : ℚ
  events : List Event
deriving DecidableEq

/-! ### Batch loops -/

/-- Record one training step's metrics into the training caches
(lines 225-226), each deque bounded by `n_batches`.  Only called with a
non-NaN loss `l`. -/
def recordTrain (nb : Nat) (c : Caches) (l : ℚ) (v : StepMetrics) : Caches :=
  { loss := { c.loss with training := dequeAppend nb c.loss.training l },
    ssim := { c.ssim with training := dequeAppend nb c.ssim.training v.ssim },
    entropy := { c.entropy with training := dequeAppend nb c.entropy.training v.entropy } }

/-- The training-batch loop (lines 176-226): run batches `bid, bid+1, ...`
(`rem` of them); on a NaN loss return `.error` with the caches as recorded
so far (the NaN batch's metrics are not recorded), else record and go on. -/
def trainBatchLoop (step : Nat → StepMetrics) (nb : Nat) :
    Nat → Nat → Caches → Except Caches Caches
  | 0, _, c => Except.ok c
  | rem + 1, bid, c =>
    let v := step bid
    match v.loss with
    | none => Except.error c
    | some l => trainBatchLoop step nb rem (bid + 1) (recordTrain nb c l v)

/-- The caches after recording training batches `bid, ..., bid + j - 1`. -/
def cachesAfterTrain (step : Nat → StepMetrics) (nb : Nat) :
    Nat → Nat → Caches → Caches
  | _, 0, c => c
  | bid, j + 1, c =>
    cachesAfterTrain step nb (bid + 1) j
      (recordTrain nb c ((step bid).loss.getD 0) (step bid))

/-- Record one validation batch's metrics into the validation caches
(lines 250-259), each deque bounded by `v_batches`. -/
def recordVal (vb : Nat) (c : Caches) (v : ValMetrics) : Caches :=
  { loss := { c.loss with validation := dequeAppend vb c.loss.validation v.loss },
    ssim := { c.ssim with validation := dequeAppend vb c.ssim.validation v.ssim },
    entropy := { c.entropy with validation := dequeAppend vb c.entropy.validation v.entropy } }

/-- The validation-batch loop (lines 244-259). -/
def valBatchLoop (vstep : Nat → ValMetrics) (vb : Nat) :
    Nat → Nat → Caches → Caches
  | 0, _, c => c
  | rem + 1, bid, c => valBatchLoop vstep vb rem (bid + 1) (recordVal vb c (vstep bid))

/-! ### The epoch body and the epoch loop -/

/-- Append each metric's training-cache mean to the Performance Log's
training series (lines 228-230). -/
def appendTrainingMeans (p : Perf) (c : Caches) : Perf :=
  { loss := { p.loss with training := p.loss.training ++ [npMean c.loss.training] },
    ssim := { p.ssim with training := p.ssim.training ++ [npMean c.ssim.training] },
    entropy := { p.entropy with training := p.entropy.training ++ [npMean c.entropy.training] } }

/-- Append each metric's validation-cache mean to the Performance Log's
validation series (lines 261-262). -/
def appendValidationMeans (p : Perf) (c : Caches) : Perf :=
  { loss := { p.loss with validation := p.loss.validation ++ [npMean c.loss.validation] },
    ssim := { p.ssim with validation := p.ssim.validation ++ [npMean c.ssim.validation] },
    entropy := { p.entropy with validation := p.entropy.validation ++ [npMean c.entropy.validation] } }

/-- Result of one iteration of the outer `for epoch ...` body: either a NaN
abort (`return None`, line 223) or a completed epoch together with the
early-stop decision of the convergence check (`break`, lines 306-318). -/
inductive EpochResult : Type
  | nan (s : TrainState)
  | ok (s : TrainState) (stop : Option StopReason)

/-- The state an `EpochResult` carries. -/
def EpochResult.state : EpochResult → TrainState
  | .nan s => s
  | .ok s _ => s

/-- One iteration of the epoch loop body of `train_dcn` (lines 168-318):
learning-rate decay, the training-batch loop with its NaN hook, the
epoch-mean appends, and — at validation epochs — the validation loop,
the checkpoint/report writes, and the convergence check. -/
def runEpoch (cfg : Config) (M : DCN) (nb vb : Nat) (epoch : Nat)
    (s : TrainState) : EpochResult :=
  let lr :=
    if 0 < epoch ∧ epoch % cfg.learning_rate_reduction_schedule = 0 then
      s.learning_rate * cfg.learning_rate_reduction_factor
    else s.learning_rate
  match trainBatchLoop (M.training_step epoch) nb nb 0 s.caches with
  | Except.error c =>
    EpochResult.nan
      { perf := s.perf, caches := c, learning_rate := lr,
        events := s.events ++ [Event.nanDump epoch] }
  | Except.ok c =>
    let p1 := appendTrainingMeans s.perf c
    if epoch % cfg.validation_schedule = 0 then
      let c2 := valBatchLoop (M.validation_metrics epoch) vb vb 0 c
      let p2 := appendValidationMeans p1 c2
      let ev :=
        s.events ++
          [Event.thumbnailsSaved epoch, Event.tbSummaryWritten epoch,
           Event.progressJsonSaved epoch, Event.checkpointSaved epoch]
      EpochResult.ok
        { perf := p2, caches := c2, learning_rate := lr, events := ev }
        (convergenceCheck p2.ssim.validation cfg.convergence_threshold)
    else
      EpochResult.ok
        { perf := p1, caches := c, learning_rate := lr, events := s.events }
        none

/-- The outer epoch loop (line 168): run epochs `epoch, epoch+1, ...`
(`fuel` of them); a NaN abort returns the `None` sentinel outcome, an
early-stop decision breaks out with the matching outcome, exhaustion
completes the run. -/
inductive Outcome : Type
  | skipped
  | divergedNaN
  | stoppedConverged
  | stoppedDeteriorated
  | completed
deriving DecidableEq, Repr

/-- The epoch loop proper. -/
def epochLoop (cfg : Config) (M : DCN) (nb vb : Nat) :
    Nat → Nat → TrainState → Outcome × TrainState
  | 0, _, s => (Outcome.completed, s)
  | fuel + 1, epoch, s =>
    match runEpoch cfg M nb vb epoch s with
    | EpochResult.nan s' => (Outcome.divergedNaN, s')
    | EpochResult.ok s' (some StopReason.converged) => (Outcome.stoppedConverged, s')
    | EpochResult.ok s' (some StopReason.deteriorated) => (Outcome.stoppedDeteriorated, s')
    | EpochResult.ok s' none => epochLoop cfg M nb vb fuel (epoch + 1) s'

/-- Empty caches (fresh deques, lines 148-152). -/
def initCaches : Caches :=
  { loss := { training := [], validation := [] },
    ssim := { training := [], validation := [] },
    entropy := { training := [], validation := [] } }

/-- The state of `train_dcn` just before the existing-directory check
(lines 146-156): the model's Performance Log, fresh caches, the configured
learning rate, and no writes performed. -/
def initState (cfg : Config) (M : DCN) : TrainState :=
  { perf := M.performance, caches := initCaches,
    learning_rate := cfg.learning_rate, events := [] }

/-- The entry point `train_dcn` (line 121): batch counts from the data
shapes, the idempotent-skip check on the output directory, summary-writer
creation, then the epoch loop. -/
def train_dcn (cfg : Config) (M : DCN) (data : DataCounts)
    (dirExists overwrite : Bool) : Outcome × TrainState :=
  let nb := data.training_count / cfg.batch_size
  let vb := data.validation_count / cfg.batch_size
  let s0 := initState cfg M
  if dirExists ∧ ¬overwrite then (Outcome.skipped, s0)
  else
    epochLoop cfg M nb vb cfg.n_epochs 0
      { s0 with events := [Event.summaryWriterCreated] }

/-- The state at the start of epoch `k` of an unaborted, unstopped run
(`none` once the run has aborted with NaN or broken out early): epoch
`k - 1`'s `runEpoch` must have completed with no stop decision. -/
def stateAfter (cfg : Config) (M : DCN) (nb vb : Nat) : Nat → Option TrainState
  | 0 => some { initState cfg M with events := [Event.summaryWriterCreated] }
  | k + 1 =>
    (stateAfter cfg M nb vb k).bind fun s =>
      match runEpoch cfg M nb vb k s with
      | EpochResult.ok s' none => some s'
      | _ => none

/-- The per-epoch progress display's read of the most recent validation
SSIM, `perf['ssim']['validation'][-1]` (line 324). -/
def progressSsimRead (s : TrainState) : Option ℚ :=
  s.perf.ssim.validation.getLast?

/-! ### Augmentation sampler (lines 178-193) -/

/-- `np.arange(training['patch_size'], 2 * training['patch_size'])`
(line 179): the integers from `P` up to `2P - 1`. -/
def patchChoices (patch_size : Nat) : List Nat :=
  (List.range patch_size).map fun i => patch_size + i

/-- The sampled `current_patch` (lines 179-181): when the resize draw
fired, `np.random.choice` picks an element of `np.arange(P, 2P)` (modelled
by the choice index `idx`); otherwise the base patch size is used. -/
def samplePatchSize (patch_size : Nat) (resizeDraw : Bool) (idx : Nat) : Nat :=
  if resizeDraw then (patchChoices patch_size).getD idx patch_size else patch_size

/-- The rescaling guard `training['patch_size'] != current_patch`
(line 187): the batch is resized only when the sampled size differs from
the base size. -/
def resizeApplied (patch_size current_patch : Nat) : Bool :=
  patch_size != current_patch

/-! ### Thumbnail snapshot (lines 264-270) -/

/-- `np.argsort` of the per-image variances (ascending). -/
def np_argsort (vars : List ℚ) : List Nat :=
  (List.range vars.length).mergeSort fun i j => decide (vars.getD i 0 ≤ vars.getD j 0)

/-- `np.argsort(np.var(batch_x, axis=(1, 2, 3)))[::-1]` (line 265):
image indices by descending variance. -/
def descendingIndices (vars : List ℚ) : List Nat := (np_argsort vars).reverse

/-- The Python slice `[::2]`: every second element, starting at the first. -/
def everyOther {α : Type} : List α → List α
  | [] => []
  | [a] => [a]
  | a :: _ :: rest => a :: everyOther rest

/-- Numpy fancy indexing `xs[idx]` for an index list. -/
def np_index {α : Type} (dflt : α) (xs : List α) (idx : List Nat) : List α :=
  idx.map fun i => xs.getD i dflt

/-- A thumbnail grid as assembled by `plotting.thumbnails`: the image
sequence and the column count it is laid out with. -/
structure ThumbGrid (α : Type) : Type where
  images : List α
  n_cols : Nat
deriving DecidableEq, Repr

/-- `np.concatenate((batch_x[indices[::2]], batch_y[indices[::2]]), axis=0)`
(line 266). -/
def thumbs_pairs_all {α : Type} (dflt : α) (x y : List α) (vars : List ℚ) : List α :=
  np_index dflt x (everyOther (descendingIndices vars)) ++
    np_index dflt y (everyOther (descendingIndices vars))

/-- `np.concatenate((batch_x[indices[:5]], batch_y[indices[:5]]), axis=0)`
(line 267). -/
def thumbs_pairs_few {α : Type} (dflt : α) (x y : List α) (vars : List ℚ) : List α :=
  np_index dflt x ((descendingIndices vars).take 5) ++
    np_index dflt y ((descendingIndices vars).take 5)

/-- The grid of line 268: all selected pairs at
`n_cols = training['batch_size'] // 2`; this is the grid written to the
per-epoch thumbnail file (line 270). -/
def thumbsGridAll {α : Type} (batch_size : Nat) (dflt : α) (x y : List α)
    (vars : List ℚ) : ThumbGrid α :=
  { images := thumbs_pairs_all dflt x y vars, n_cols := batch_size / 2 }

/-- The grid of line 269: only the top-5 pairs at `n_cols = 5`. -/
def thumbsGridFew {α : Type} (dflt : α) (x y : List α) (vars : List ℚ) : ThumbGrid α :=
  { images := thumbs_pairs_few dflt x y vars, n_cols := 5 }

/-- Left-pad a string with zeros to width `w` (Python format `{:05d}`). -/
def zeroPad (w : Nat) (s : String) : String :=
  String.mk (List.replicate (w - s.length) '0') ++ s

/-- The per-epoch thumbnail file name of line 270. -/
def thumbFilename (epoch : Nat) : String :=
  "thumbnails-" ++ zeroPad 5 (toString epoch) ++ ".png"

/-! ### Concrete fixtures used by the witnesses -/

/-- An empty Performance Log (a freshly initialised model). -/
def emptyPerf : Perf :=
  { loss := { training := [], validation := [] },
    ssim := { training := [], validation := [] },
    entropy := { training := [], validation := [] } }

/-- A small concrete training configuration. -/
def cfgW : Config :=
  { batch_size := 1, n_epochs := 3, learning_rate := 1,
    learning_rate_reduction_factor := 1 / 2,
    learning_rate_reduction_schedule := 2, validation_schedule := 1,
    convergence_threshold := 1 / 100 }

/-- A concrete model whose steps always return the same finite metrics. -/
def dcnW : DCN :=
  { performance := emptyPerf,
    training_step := fun _ _ => { loss := some 2, ssim := 4, entropy := 6 },
    validation_metrics := fun _ _ => { loss := 3, ssim := 5, entropy := 7 } }

/-- A concrete model whose very first training step returns a NaN loss. -/
def dcnNaN : DCN :=
  { performance := emptyPerf,
    training_step := fun _ _ => { loss := none, ssim := 4, entropy := 6 },
    validation_metrics := fun _ _ => { loss := 3, ssim := 5, entropy := 7 } }

/-- The state `dcnW`'s run is in after epoch 0 (one training batch, one
validation batch, every report written, no stop decision). -/
def stateW1 : TrainState :=
  { perf :=
      { loss := { training := [2], validation := [3] },
        ssim := { training := [4], validation := [5] },
        entropy := { training := [6], validation := [7] } },
    caches :=
      { loss := { training := [2], validation := [3] },
        ssim := { training := [4], validation := [5] },
        entropy := { training := [6], validation := [7] } },
    learning_rate := 1,
    events :=
      [Event.summaryWriterCreated, Event.thumbnailsSaved 0,
       Event.tbSummaryWritten 0, Event.progressJsonSaved 0,
       Event.checkpointSaved 0] }

/-! ## Helper lemmas -/

theorem dequeAppend_eq_drop {α : Type} (mx : Nat) (d : List α) (v : α) :
    dequeAppend mx d v = (d ++ [v]).drop (d.length + 1 - mx) := by
  simp only [dequeAppend, List.length_append, List.length_cons, List.length_nil]
  split
  · rfl
  · have h0 : d.length + 1 - mx = 0 := by omega
    simp [h0]

theorem dequeAppend_length_le {α : Type} (mx : Nat) (d : List α) (v : α) :
    (dequeAppend mx d v).length ≤ max d.length mx := by
  rw [dequeAppend_eq_drop]
  simp only [List.length_drop, List.length_append, List.length_cons, List.length_nil]
  omega

theorem foldl_dequeAppend {α : Type} (mx : Nat) :
    ∀ (vs d : List α), d.length ≤ mx →
      List.foldl (dequeAppend mx) d vs = (d ++ vs).drop (d.length + vs.length - mx) := by
  intro vs
  induction vs with
  | nil =>
    intro d h
    simp [Nat.sub_eq_zero_of_le h]
  | cons v vs ih =>
    intro d h
    have h' : (dequeAppend mx d v).length ≤ mx := by
      rw [dequeAppend_eq_drop]
      simp only [List.length_drop, List.length_append, List.length_cons, List.length_nil]
      omega
    rw [List.foldl_cons, ih (dequeAppend mx d v) h', dequeAppend_eq_drop]
    have hk : d.length + 1 - mx ≤ (d ++ [v]).length := by
      simp only [List.length_append, List.length_cons, List.length_nil]
      omega
    rw [← List.drop_append_of_le_length hk, List.drop_drop]
    rw [List.append_assoc, List.singleton_append]
    congr 1
    simp only [List.length_drop, List.length_append, List.length_cons, List.length_nil]
    omega

theorem everyOther_sublist {α : Type} : ∀ l : List α, (everyOther l).Sublist l
  | [] => by simp [everyOther]
  | [a] => by simp [everyOther]
  | a :: b :: rest => by
    simp only [everyOther]
    exact (List.Sublist.cons b (everyOther_sublist rest)).cons₂ a

/-- All branches of the epoch body store the decayed learning rate. -/
theorem runEpoch_state_lr (cfg : Config) (M : DCN) (nb vb epoch : Nat)
    (s : TrainState) :
    (runEpoch cfg M nb vb epoch s).state.learning_rate =
      if 0 < epoch ∧ epoch % cfg.learning_rate_reduction_schedule = 0 then
        s.learning_rate * cfg.learning_rate_reduction_factor
      else s.learning_rate := by
  unfold runEpoch
  cases htb : trainBatchLoop (M.training_step epoch) nb nb 0 s.caches with
  | error c => rfl
  | ok c =>
    dsimp only
    by_cases hv : epoch % cfg.validation_schedule = 0
    · rw [if_pos hv]; rfl
    · rw [if_neg hv]; rfl

/-- How one completed (non-NaN) epoch changes the Performance Log: the
training series each gain exactly one epoch average; the validation series
each gain exactly one entry when the epoch is a validation epoch and are
untouched otherwise. -/
theorem runEpoch_ok_perf (cfg : Config) (M : DCN) (nb vb epoch : Nat)
    (s s' : TrainState) (stop : Option StopReason)
    (h : runEpoch cfg M nb vb epoch s = EpochResult.ok s' stop) :
    s'.perf.loss.training.length = s.perf.loss.training.length + 1 ∧
    s'.perf.ssim.training.length = s.perf.ssim.training.length + 1 ∧
    s'.perf.entropy.training.length = s.perf.entropy.training.length + 1 ∧
    s'.perf.loss.validation.length =
      s.perf.loss.validation.length +
        (if epoch % cfg.validation_schedule = 0 then 1 else 0) ∧
    s'.perf.ssim.validation.length =
      s.perf.ssim.validation.length +
        (if epoch % cfg.validation_schedule = 0 then 1 else 0) ∧
    s'.perf.entropy.validation.length =
      s.perf.entropy.validation.length +
        (if epoch % cfg.validation_schedule = 0 then 1 else 0) := by
  unfold runEpoch at h
  cases htb : trainBatchLoop (M.training_step epoch) nb nb 0 s.caches with
  | error c =>
    rw [htb] at h
    dsimp only at h
    exact EpochResult.noConfusion h
  | ok c =>
    rw [htb] at h
    dsimp only at h
    by_cases hv : epoch % cfg.validation_schedule = 0
    · rw [if_pos hv] at h
      injection h with h1 h2
      subst h1
      simp [appendValidationMeans, appendTrainingMeans, hv]
    · rw [if_neg hv] at h
      injection h with h1 h2
      subst h1
      simp [appendTrainingMeans, hv]

/-! ## Claim C7: the Metric Cache is a bounded ring buffer -/

/-- C7: pushing any value sequence through a `deque(maxlen=mx)` (the
Metric Cache structure of lines 148-152, whose capacity is the split's
per-epoch batch count) never leaves more than `mx` entries; the survivors
are exactly the most recent `mx` values (oldest evicted); and over `k ≤ mx`
pushed values the buffer holds them all, so `np.mean` over it is exactly
their arithmetic mean. -/
theorem metricCache_ring_buffer (mx : Nat) (vs : List ℚ) :
    (List.foldl (dequeAppend mx) [] vs).length ≤ mx ∧
    List.foldl (dequeAppend mx) [] vs = vs.drop (vs.length - mx) ∧
    (vs.length ≤ mx →
      List.foldl (dequeAppend mx) [] vs = vs ∧
      npMean (List.foldl (dequeAppend mx) [] vs) = vs.sum / vs.length) := by
  have hfold := foldl_dequeAppend mx vs [] (by simp)
  simp only [List.nil_append, List.length_nil, Nat.zero_add] at hfold
  refine ⟨?_, hfold, ?_⟩
  · rw [hfold]
    simp only [List.length_drop]
    omega
  · intro hk
    have h0 : vs.length - mx = 0 := by omega
    rw [hfold, h0, List.drop_zero]
    exact ⟨rfl, rfl⟩

/-- Witness for C7 at a concrete input. -/
theorem metricCache_ring_buffer_witness :
    (List.foldl (dequeAppend 3) [] [(1 : ℚ), 2, 3]).length ≤ 3 ∧
    List.foldl (dequeAppend 3) [] [(1 : ℚ), 2, 3] =
      [(1 : ℚ), 2, 3].drop ([(1 : ℚ), 2, 3].length - 3) ∧
    ([(1 : ℚ), 2, 3].length ≤ 3 →
      List.foldl (dequeAppend 3) [] [(1 : ℚ), 2, 3] = [(1 : ℚ), 2, 3] ∧
      npMean (List.foldl (dequeAppend 3) [] [(1 : ℚ), 2, 3]) =
        [(1 : ℚ), 2, 3].sum / [(1 : ℚ), 2, 3].length) :=
  metricCache_ring_buffer 3 [(1 : ℚ), 2, 3]

/-! ## Claim C1: the convergence check (corrected) -/

/-- C1 counterexample: the claim's `previous` is the mean of the disjoint
window of 5 values before the last 5 (`claimedPreviousMean`).  On the log
`[1,1,1,1,1,2,2,2,2,2]` with threshold `1/2`, the claimed relative change
is `|2 - 1| / 1 = 1`, not below the threshold — so under the claim no
"converged" stop would fire — yet the code's check (which uses the
overlapping window `[-6:-1]`, giving `previous = 9/5` and relative change
`1/9`) does signal "converged". -/
theorem convergence_check_counterexample :
    convergenceCheck [1, 1, 1, 1, 1, 2, 2, 2, 2, 2] (1 / 2) = some StopReason.converged ∧
    ¬ |(currentMean [1, 1, 1, 1, 1, 2, 2, 2, 2, 2] -
          claimedPreviousMean [1, 1, 1, 1, 1, 2, 2, 2, 2, 2]) /
        claimedPreviousMean [1, 1, 1, 1, 1, 2, 2, 2, 2, 2]| < (1 / 2 : ℚ) := by
  constructor
  · norm_num [convergenceCheck, perfChange, currentMean, previousMean, npMean, n_tail, abs]
  · norm_num [currentMean, claimedPreviousMean, npMean, n_tail, abs]

/-- C1 (amended): with more than 5 validation-SSIM epoch averages the
check computes `current` as the mean of the last 5 values and `previous`
as the mean of the 5 values ending one position before the most recent
one (slice `[-6:-1]`, overlapping the last-5 window in 4 values), sets
`perf_change = |(current - previous) / previous|`, and signals the
"converged" early stop exactly when `perf_change` is below the
convergence threshold, in which case the epoch loop breaks immediately;
with 5 or fewer values no stop decision is made. -/
theorem convergence_check_amended (xs : List ℚ) (th : ℚ) :
    (5 < xs.length →
      (convergenceCheck xs th = some StopReason.converged ↔ perfChange xs < th)) ∧
    (xs.length ≤ 5 → convergenceCheck xs th = none) ∧
    (∀ (cfg : Config) (M : DCN) (nb vb fuel epoch : Nat) (s s' : TrainState),
      runEpoch cfg M nb vb epoch s = EpochResult.ok s' (some StopReason.converged) →
      epochLoop cfg M nb vb (fuel + 1) epoch s = (Outcome.stoppedConverged, s')) := by
  refine ⟨fun h5 => ?_, fun hle => ?_, fun cfg M nb vb fuel epoch s s' h => ?_⟩
  · rw [convergenceCheck, if_pos h5]
    constructor
    · intro h
      by_contra hc
      rw [if_neg hc] at h
      split_ifs at h
      exact StopReason.noConfusion (Option.some.inj h)
    · intro h
      rw [if_pos h]
  · rw [convergenceCheck, if_neg (by omega)]
  · simp [epochLoop, h]

/-- Witness for C1's amended theorem at the counterexample's log. -/
theorem convergence_check_amended_witness :
    convergenceCheck [1, 1, 1, 1, 1, 2, 2, 2, 2, 2] (1 / 2) = some StopReason.converged :=
  ((convergence_check_amended [1, 1, 1, 1, 1, 2, 2, 2, 2, 2] (1 / 2)).1
      (by norm_num)).mpr
    (by norm_num [perfChange, currentMean, previousMean, npMean, n_tail, abs])

/-! ## Claim C3: the deterioration check -/

/-- C3: at a validation epoch with more than 5 validation-SSIM averages,
when `perf_change` is not below the convergence threshold (so the
convergence branch, tested first, did not fire) and `current` has dropped
below `0.9 * previous`, the check signals the "deteriorated" early stop,
and the epoch loop then breaks gracefully with the deteriorated outcome
(an ordinary return value, not an exception). -/
theorem deterioration_check (xs : List ℚ) (th : ℚ) (h5 : 5 < xs.length)
    (hnc : ¬ perfChange xs < th)
    (hd : currentMean xs < (9 / 10) * previousMean xs) :
    convergenceCheck xs th = some StopReason.deteriorated ∧
    (∀ (cfg : Config) (M : DCN) (nb vb fuel epoch : Nat) (s s' : TrainState),
      runEpoch cfg M nb vb epoch s = EpochResult.ok s' (some StopReason.deteriorated) →
      epochLoop cfg M nb vb (fuel + 1) epoch s = (Outcome.stoppedDeteriorated, s')) := by
  constructor
  · rw [convergenceCheck, if_pos h5, if_neg hnc, if_pos hd]
  · intro cfg M nb vb fuel epoch s s' h
    simp [epochLoop, h]

/-- Witness for C3: on `[1,1,1,1,1,0,0,0,0,0]` (current mean 0, previous
mean 1/5, relative change 1 ≥ threshold 1/2, and 0 < 0.9 · (1/5)) the
check reports deterioration. -/
theorem deterioration_check_witness :
    convergenceCheck [1, 1, 1, 1, 1, 0, 0, 0, 0, 0] (1 / 2) = some StopReason.deteriorated :=
  (deterioration_check [1, 1, 1, 1, 1, 0, 0, 0, 0, 0] (1 / 2) (by norm_num)
      (by norm_num [perfChange, currentMean, previousMean, npMean, n_tail, abs])
      (by norm_num [currentMean, previousMean, npMean, n_tail])).1

/-! ## Claim C4: the resize augmentation draw (corrected) -/

/-- C4 counterexample: `np.arange(P, 2P)` starts at `P` itself, so with
base patch size 4 the choice at index 0 is 4 — not strictly greater
than `P` as the claim requires. -/
theorem patch_sample_counterexample :
    ¬ (4 < samplePatchSize 4 true 0 ∧ samplePatchSize 4 true 0 < 2 * 4) := by
  decide

/-- C4 (amended): when the resize draw fires, the sampled patch size is an
element of `np.arange(P, 2P)` — an integer at least `P` (it may equal `P`,
in which case the size-mismatch guard skips the rescale) and strictly
below `2P`; when the draw does not fire, the patch size is exactly `P` and
no rescale is applied. -/
theorem patch_sample_amended (P idx : Nat) (hidx : idx < P) :
    P ≤ samplePatchSize P true idx ∧
    samplePatchSize P true idx < 2 * P ∧
    samplePatchSize P false idx = P ∧
    resizeApplied P (samplePatchSize P false idx) = false ∧
    (resizeApplied P (samplePatchSize P true idx) = false ↔
      samplePatchSize P true idx = P) := by
  have hval : samplePatchSize P true idx = P + idx := by
    simp [samplePatchSize, patchChoices, List.getElem?_range hidx]
  have hbase : samplePatchSize P false idx = P := by
    simp [samplePatchSize]
  refine ⟨by omega, by omega, hbase, ?_, ?_⟩
  · simp [resizeApplied, hbase]
  · rw [hval]
    simp only [resizeApplied, bne_eq_false_iff_eq]
    omega

/-- Witness for C4's amended theorem at `P = 4`, choice index 1. -/
theorem patch_sample_amended_witness :
    4 ≤ samplePatchSize 4 true 1 ∧
    samplePatchSize 4 true 1 < 2 * 4 ∧
    samplePatchSize 4 false 1 = 4 ∧
    resizeApplied 4 (samplePatchSize 4 false 1) = false ∧
    (resizeApplied 4 (samplePatchSize 4 true 1) = false ↔
      samplePatchSize 4 true 1 = 4) :=
  patch_sample_amended 4 1 (by decide)

/-! ## Claim C5: idempotent skip -/

/-- C5: calling the entry point with an existing target directory and
`overwrite = False` returns immediately in the state it started in:
outcome "skipped", no epoch run, an empty write-event list (no summary
writer, no thumbnail, no progress.json, no checkpoint), and the
Performance Log exactly as the model held it. -/
theorem idempotent_skip (cfg : Config) (M : DCN) (data : DataCounts) :
    train_dcn cfg M data true false = (Outcome.skipped, initState cfg M) ∧
    (initState cfg M).events = [] ∧
    (initState cfg M).perf = M.performance := by
  refine ⟨?_, rfl, rfl⟩
  simp [train_dcn]

/-! ## Claim C2: NaN divergence abort -/

/-- If the first NaN loss appears at batch `bid + j` (and not earlier),
the training-batch loop aborts there, with exactly the first `j` batches
recorded and the NaN batch's metrics left out. -/
theorem trainBatchLoop_first_nan (step : Nat → StepMetrics) (nb : Nat) :
    ∀ (j rem bid : Nat) (c : Caches), j < rem →
      (step (bid + j)).loss = none →
      (∀ i, i < j → (step (bid + i)).loss ≠ none) →
      trainBatchLoop step nb rem bid c =
        Except.error (cachesAfterTrain step nb bid j c) := by
  intro j
  induction j with
  | zero =>
    intro rem bid c hlt hnan _
    match rem, hlt with
    | rem + 1, _ =>
      have hb : (step bid).loss = none := by simpa using hnan
      simp only [trainBatchLoop, cachesAfterTrain, hb]
  | succ j ih =>
    intro rem bid c hlt hnan hfirst
    match rem, hlt with
    | rem + 1, _ =>
      have h0 : (step bid).loss ≠ none := by
        have := hfirst 0 (Nat.succ_pos j)
        simpa using this
      obtain ⟨l, hl⟩ := Option.ne_none_iff_exists'.mp h0
      have hnan' : (step (bid + 1 + j)).loss = none := by
        have h : bid + 1 + j = bid + (j + 1) := by omega
        rw [h]
        exact hnan
      have hfirst' : ∀ i, i < j → (step (bid + 1 + i)).loss ≠ none := by
        intro i hi
        have h : bid + 1 + i = bid + (i + 1) := by omega
        rw [h]
        exact hfirst (i + 1) (by omega)
      simp only [trainBatchLoop, cachesAfterTrain, hl, Option.getD_some]
      exact ih rem (bid + 1) (recordTrain nb c l (step bid)) (by omega) hnan' hfirst'

/-- C2: if `training_step` returns a NaN loss at batch `b` of epoch
`epoch` (the earlier batches of that epoch being NaN-free), the run
returns the `None` sentinel (outcome `divergedNaN`) right after the
diagnostic dump, with the Performance Log exactly as it was before the
epoch (no epoch average appended), and the Metric Cache holding only the
first `b` batches — the NaN batch's metrics are never recorded.  The
state `s` is arbitrary, so this covers any batch of any epoch of any run. -/
theorem nan_abort (cfg : Config) (M : DCN) (nb vb fuel epoch b : Nat)
    (s : TrainState) (hb : b < nb)
    (hnan : (M.training_step epoch b).loss = none)
    (hfirst : ∀ k, k < b → (M.training_step epoch k).loss ≠ none) :
    ∃ s', epochLoop cfg M nb vb (fuel + 1) epoch s = (Outcome.divergedNaN, s') ∧
      s'.perf = s.perf ∧
      s'.caches = cachesAfterTrain (M.training_step epoch) nb 0 b s.caches ∧
      s'.events = s.events ++ [Event.nanDump epoch] := by
  have htb := trainBatchLoop_first_nan (M.training_step epoch) nb b nb 0 s.caches hb
    (by simpa using hnan) (by simpa using hfirst)
  refine ⟨{ perf := s.perf,
            caches := cachesAfterTrain (M.training_step epoch) nb 0 b s.caches,
            learning_rate :=
              if 0 < epoch ∧ epoch % cfg.learning_rate_reduction_schedule = 0 then
                s.learning_rate * cfg.learning_rate_reduction_factor
              else s.learning_rate,
            events := s.events ++ [Event.nanDump epoch] }, ?_, rfl, rfl, rfl⟩
  simp only [epochLoop, runEpoch, htb]

/-- Witness for C2: a model whose first step yields NaN aborts the run at
once with nothing recorded. -/
theorem nan_abort_witness :
    ∃ s', epochLoop cfgW dcnNaN 1 1 1 0 (initState cfgW dcnNaN) =
        (Outcome.divergedNaN, s') ∧
      s'.perf = (initState cfgW dcnNaN).perf ∧
      s'.caches =
        cachesAfterTrain (dcnNaN.training_step 0) 1 0 0 (initState cfgW dcnNaN).caches ∧
      s'.events = (initState cfgW dcnNaN).events ++ [Event.nanDump 0] :=
  nan_abort cfgW dcnNaN 1 1 0 0 0 (initState cfgW dcnNaN) (by decide) rfl
    (fun k hk => absurd hk (Nat.not_lt_zero k))

/-! ## Claim C8: learning-rate schedule -/

/-- C8: every epoch body stores the learning rate decayed exactly by the
source's rule — multiplied by the reduction factor precisely when
`epoch > 0` and `epoch % learning_rate_reduction_schedule == 0`, unchanged
otherwise — and with a reduction factor in `(0, 1]` and a nonnegative
current rate the stored rate never increases. -/
theorem learning_rate_schedule (cfg : Config) (M : DCN) (nb vb epoch : Nat)
    (s : TrainState)
    (_hf0 : 0 < cfg.learning_rate_reduction_factor)
    (hf1 : cfg.learning_rate_reduction_factor ≤ 1)
    (hlr : 0 ≤ s.learning_rate) :
    (runEpoch cfg M nb vb epoch s).state.learning_rate =
      (if 0 < epoch ∧ epoch % cfg.learning_rate_reduction_schedule = 0 then
        s.learning_rate * cfg.learning_rate_reduction_factor
      else s.learning_rate) ∧
    (runEpoch cfg M nb vb epoch s).state.learning_rate ≤ s.learning_rate := by
  refine ⟨runEpoch_state_lr cfg M nb vb epoch s, ?_⟩
  rw [runEpoch_state_lr]
  split_ifs with h
  · exact mul_le_of_le_one_right hlr hf1
  · exact le_refl _

/-- Witness for C8 at epoch 2 with schedule 2 and factor 1/2. -/
theorem learning_rate_schedule_witness :
    ((runEpoch cfgW dcnW 1 1 2 stateW1).state.learning_rate =
      (if 0 < 2 ∧ 2 % cfgW.learning_rate_reduction_schedule = 0 then
        stateW1.learning_rate * cfgW.learning_rate_reduction_factor
      else stateW1.learning_rate)) ∧
    (runEpoch cfgW dcnW 1 1 2 stateW1).state.learning_rate ≤ stateW1.learning_rate :=
  learning_rate_schedule cfgW dcnW 1 1 2 stateW1 (by norm_num [cfgW])
    (by norm_num [cfgW]) (by norm_num [stateW1])

/-! ## Claims C6 and C10: Performance Log growth and the progress read -/

/-- Running `k` epochs (no NaN, no early stop) grows each training series
by exactly `k` entries and each validation series by exactly one entry per
validation round among epochs `0, ..., k-1`. -/
theorem stateAfter_perf_lengths (cfg : Config) (M : DCN) (nb vb : Nat) :
    ∀ (k : Nat) (s' : TrainState), stateAfter cfg M nb vb k = some s' →
      s'.perf.loss.training.length = M.performance.loss.training.length + k ∧
      s'.perf.ssim.training.length = M.performance.ssim.training.length + k ∧
      s'.perf.entropy.training.length = M.performance.entropy.training.length + k ∧
      s'.perf.loss.validation.length = M.performance.loss.validation.length +
        (List.range k).countP (fun ep => ep % cfg.validation_schedule == 0) ∧
      s'.perf.ssim.validation.length = M.performance.ssim.validation.length +
        (List.range k).countP (fun ep => ep % cfg.validation_schedule == 0) ∧
      s'.perf.entropy.validation.length = M.performance.entropy.validation.length +
        (List.range k).countP (fun ep => ep % cfg.validation_schedule == 0) := by
  intro k
  induction k with
  | zero =>
    intro s' h
    simp only [stateAfter, Option.some.injEq] at h
    subst h
    simp [initState]
  | succ k ih =>
    intro s' h
    simp only [stateAfter] at h
    cases hs : stateAfter cfg M nb vb k with
    | none => rw [hs] at h; exact Option.noConfusion h
    | some s0 =>
      rw [hs] at h
      simp only [Option.some_bind] at h
      cases hre : runEpoch cfg M nb vb k s0 with
      | nan s1 => rw [hre] at h; exact Option.noConfusion h
      | ok s1 stop =>
        rw [hre] at h
        cases stop with
        | some r => cases r <;> exact Option.noConfusion h
        | none =>
          simp only [Option.some.injEq] at h
          subst h
          obtain ⟨t1, t2, t3, v1, v2, v3⟩ := runEpoch_ok_perf cfg M nb vb k s0 s1 none hre
          obtain ⟨u1, u2, u3, w1, w2, w3⟩ := ih s0 hs
          have hcount : (List.range (k + 1)).countP
              (fun ep => ep % cfg.validation_schedule == 0) =
              (List.range k).countP (fun ep => ep % cfg.validation_schedule == 0) +
                (if k % cfg.validation_schedule = 0 then 1 else 0) := by
            rw [List.range_succ, List.countP_append]
            by_cases hk : k % cfg.validation_schedule = 0
            · simp [hk, List.countP_cons]
            · simp [hk, List.countP_cons]
          refine ⟨by omega, by omega, by omega, ?_, ?_, ?_⟩ <;>
            rw [hcount] <;> omega

/-- C6: starting from an empty Performance Log, after `e + 1` completed
(non-aborted, non-stopped) training epochs every training series has
length exactly `e + 1` — one appended epoch average per epoch, never
skipped, never duplicated — and every validation series has exactly one
entry per validation round among epochs `0, ..., e`. -/
theorem performance_log_growth (cfg : Config) (M : DCN) (nb vb : Nat)
    (hM : M.performance = emptyPerf) (e : Nat) (s' : TrainState)
    (h : stateAfter cfg M nb vb (e + 1) = some s') :
    (s'.perf.loss.training.length = e + 1 ∧
     s'.perf.ssim.training.length = e + 1 ∧
     s'.perf.entropy.training.length = e + 1) ∧
    (s'.perf.loss.validation.length =
        (List.range (e + 1)).countP (fun ep => ep % cfg.validation_schedule == 0) ∧
     s'.perf.ssim.validation.length =
        (List.range (e + 1)).countP (fun ep => ep % cfg.validation_schedule == 0) ∧
     s'.perf.entropy.validation.length =
        (List.range (e + 1)).countP (fun ep => ep % cfg.validation_schedule == 0)) := by
  obtain ⟨t1, t2, t3, v1, v2, v3⟩ := stateAfter_perf_lengths cfg M nb vb (e + 1) s' h
  rw [hM] at t1 t2 t3 v1 v2 v3
  simp only [emptyPerf, List.length_nil, Nat.zero_add] at t1 t2 t3 v1 v2 v3
  exact ⟨⟨t1, t2, t3⟩, v1, v2, v3⟩

/-- The concrete run of `dcnW` under `cfgW` reaches `stateW1` after
epoch 0. -/
theorem stateAfter_cfgW_one : stateAfter cfgW dcnW 1 1 1 = some stateW1 := by
  norm_num [stateAfter, runEpoch, trainBatchLoop, recordTrain, valBatchLoop, recordVal,
    appendTrainingMeans, appendValidationMeans, dequeAppend, npMean, convergenceCheck,
    initState, initCaches, cfgW, dcnW, emptyPerf, stateW1]

/-- Witness for C6: the concrete run after one epoch has one entry in
every series. -/
theorem performance_log_growth_witness :
    (stateW1.perf.loss.training.length = 0 + 1 ∧
     stateW1.perf.ssim.training.length = 0 + 1 ∧
     stateW1.perf.entropy.training.length = 0 + 1) ∧
    (stateW1.perf.loss.validation.length =
        (List.range (0 + 1)).countP (fun ep => ep % cfgW.validation_schedule == 0) ∧
     stateW1.perf.ssim.validation.length =
        (List.range (0 + 1)).countP (fun ep => ep % cfgW.validation_schedule == 0) ∧
     stateW1.perf.entropy.validation.length =
        (List.range (0 + 1)).countP (fun ep => ep % cfgW.validation_schedule == 0)) :=
  performance_log_growth cfgW dcnW 1 1 rfl 0 stateW1 stateAfter_cfgW_one

/-- C10: with `validation_schedule ≥ 1` (and at least one validation
batch), the condition `epoch % validation_schedule == 0` holds at epoch 0,
so the first epoch always runs a validation round; hence in every
non-stopped run state the validation-SSIM series is non-empty and the
progress display's read of its last element never hits an empty list. -/
theorem validation_read_safety (cfg : Config) (M : DCN) (nb vb : Nat)
    (_hvs : 1 ≤ cfg.validation_schedule) (_hvb : 1 ≤ vb) :
    0 % cfg.validation_schedule = 0 ∧
    ∀ (e : Nat) (s' : TrainState), stateAfter cfg M nb vb (e + 1) = some s' →
      (progressSsimRead s').isSome := by
  refine ⟨Nat.zero_mod _, fun e s' h => ?_⟩
  obtain ⟨_, _, _, _, hssim, _⟩ := stateAfter_perf_lengths cfg M nb vb (e + 1) s' h
  have hc : 0 < (List.range (e + 1)).countP
      (fun ep => ep % cfg.validation_schedule == 0) := by
    rw [List.countP_pos_iff]
    exact ⟨0, List.mem_range.mpr (Nat.succ_pos e), by simp⟩
  rw [progressSsimRead, List.getLast?_isSome]
  exact List.length_pos.mp (by omega)

/-- Witness for C10 on the concrete run: after epoch 0 the read succeeds. -/
theorem validation_read_safety_witness :
    0 % cfgW.validation_schedule = 0 ∧ (progressSsimRead stateW1).isSome :=
  ⟨(validation_read_safety cfgW dcnW 1 1 (by norm_num [cfgW]) (by norm_num)).1,
   (validation_read_safety cfgW dcnW 1 1 (by norm_num [cfgW]) (by norm_num)).2
     0 stateW1 stateAfter_cfgW_one⟩

/-! ## Claim C9: thumbnail snapshot grids -/

/-- C9: the visualization index order is a permutation of the batch
indices sorted by descending per-image variance; the "all" grid (the one
written to the per-epoch file) contains the original then reconstruction
of every selected index (every second index of the descending order, a
subsequence of it) at `n_cols = batch_size / 2`; the second grid holds
exactly the top-5 indices' pairs at `n_cols = 5`; and the per-epoch file
name is the zero-padded epoch number. -/
theorem thumbnail_grids {α : Type} (dflt : α) (x y : List α) (vars : List ℚ)
    (batch_size epoch : Nat) :
    (descendingIndices vars).Perm (List.range vars.length) ∧
    (descendingIndices vars).Pairwise (fun i j => vars.getD j 0 ≤ vars.getD i 0) ∧
    (everyOther (descendingIndices vars)).Sublist (descendingIndices vars) ∧
    (thumbsGridAll batch_size dflt x y vars).images =
      np_index dflt x (everyOther (descendingIndices vars)) ++
        np_index dflt y (everyOther (descendingIndices vars)) ∧
    (thumbsGridAll batch_size dflt x y vars).n_cols = batch_size / 2 ∧
    (thumbsGridFew dflt x y vars).images =
      np_index dflt x ((descendingIndices vars).take 5) ++
        np_index dflt y ((descendingIndices vars).take 5) ∧
    (thumbsGridFew dflt x y vars).n_cols = 5 ∧
    thumbFilename epoch = "thumbnails-" ++ zeroPad 5 (toString epoch) ++ ".png" := by
  refine ⟨?_, ?_, everyOther_sublist _, rfl, rfl, rfl, rfl, rfl⟩
  · exact (List.reverse_perm _).trans (List.mergeSort_perm _ _)
  · have hs : (List.mergeSort (List.range vars.length)
        (fun i j => decide (vars.getD i 0 ≤ vars.getD j 0))).Pairwise
        (fun i j => (decide (vars.getD i 0 ≤ vars.getD j 0) : Bool) = true) := by
      apply List.sorted_mergeSort
      · intro a b c h1 h2
        simp only [decide_eq_true_eq] at h1 h2 ⊢
        exact le_trans h1 h2
      · intro a b
        simp only [Bool.or_eq_true, decide_eq_true_eq]
        exact le_total _ _
    rw [descendingIndices, np_argsort, List.pairwise_reverse]
    refine hs.imp ?_
    intro a b h
    exact of_decide_eq_true h

end NeuralImaging
